import Mathlib

/-!
# Verification of the Coffee-Storage-TDMS sync/orchestration core

Shallow embedding of the data-freshness core of the Coffee-Storage-TDMS
dashboard:

* the synthetic sensor generator `CoffeeWarehouseSensorGenerator`
  (`src/lib/sensor-data-generator.ts`, shipped as `src/unnamed/part_001`);
* the client-side orchestrator hook `useSensorData` (the TypeScript source
  embedded at the end of `src/scripts/create-helper-functions.sql`):
  `fetchData`, `syncThingSpeak`, `calculateOptimalInterval`,
  `generateMockData`;
* the `/api/sensor-data` GET handler and the `/api/sync-thingspeak` POST
  handler (`src/app/api/send-feedback/route.ts`,
  `src/app/api/sync-thingspeak/route.ts`).

Modelling conventions:

* JavaScript numbers are modelled as rationals (`ℚ`); `Math.round` is
  Mathlib's `round` (both are floor of `x + 1/2`).
* `Math.sin` applied to the clock is replaced by an oracle value supplied in
  the environment and constrained to `[-1, 1]`; `Math.random()` draws are
  oracle values constrained to `[0, 1]`.  Each call site takes its own
  oracle slot, mirroring independent draws.
* The JavaScript remainder `%` is modelled with the floor-based `jsMod`;
  every call site in the source applies it to a non-negative numerator,
  where the two coincide.
* External I/O (`fetch`, Supabase queries, JSON parsing) is modelled by
  explicit environment values enumerating the outcomes the source code
  distinguishes (thrown / non-2xx / parsed body).
* React `useState` cells of the hook are collected into `HookState`, and
  each `async` callback of the hook becomes a state-transition function.
-/

namespace TDMS

/-- JavaScript `x || d` on a possibly-null number: `null`/`undefined` and `0`
are falsy and select the default. -/
def jsOr (x : Option ℚ) (d : ℚ) : ℚ :=
  match x with
  | none => d
  | some v => if v = 0 then d else v

/-- JavaScript `x || d` on a plain number: `0` is falsy and selects the
default. -/
def jsOrNum (x d : ℚ) : ℚ :=
  if x = 0 then d else x

/-- Source `Math.round(x * 10) / 10`, the one-decimal rounding used throughout the
generator. -/
def round10 (x : ℚ) : ℚ :=
  ((round (x * 10) : ℤ) : ℚ) / 10

/-- Source `Math.round` as a map on rationals. -/
def jsRound (x : ℚ) : ℚ :=
  ((round x : ℤ) : ℚ)

/-- Floor-based remainder; agrees with the JavaScript `%` operator on the
non-negative numerators the source feeds it. -/
def jsMod (a b : ℚ) : ℚ :=
  a - b * ((⌊a / b⌋ : ℤ) : ℚ)

/-- The quality band returned by `determineQuality`
(`sensor-data-generator.ts`). -/
inductive Quality
  | excellent
  | good
  | moderate
  | poor
  | hazardous
deriving DecidableEq, Repr

/-- The running penalty score of
`CoffeeWarehouseSensorGenerator.determineQuality`: start at 100 and apply
the source's sequence of conditional subtractions. -/
def qualityScore (temp humidity smallDust : ℚ) : ℤ :=
  let score : ℤ := 100
  let score := if temp < 18 ∨ temp > 24 then score - 20 else score
  let score := if temp < 15 ∨ temp > 28 then score - 30 else score
  let score := if humidity < 50 ∨ humidity > 65 then score - 15 else score
  let score := if humidity < 40 ∨ humidity > 75 then score - 25 else score
  let score := if smallDust > 20 then score - 15 else score
  let score := if smallDust > 35 then score - 25 else score
  let score := if smallDust > 50 then score - 40 else score
  score

/-- Source `CoffeeWarehouseSensorGenerator.determineQuality`: map the penalty score
to a band. -/
def determineQuality (temp humidity smallDust : ℚ) : Quality :=
  let score := qualityScore temp humidity smallDust
  if score ≥ 85 then .excellent
  else if score ≥ 70 then .good
  else if score ≥ 50 then .moderate
  else if score ≥ 30 then .poor
  else .hazardous

/-- Oracle values for the `Math.random()` draws of one `generateReading`
call, one slot per call site. -/
structure Draws where
  weather : ℚ
  tempVar : ℚ
  humidityVar : ℚ
  dustVar : ℚ
  largeVar : ℚ
deriving Repr, DecidableEq

/-- All draws lie in `[0, 1]`, as `Math.random()` guarantees. -/
def Draws.Valid (d : Draws) : Prop :=
  0 ≤ d.weather ∧ d.weather ≤ 1 ∧
  0 ≤ d.tempVar ∧ d.tempVar ≤ 1 ∧
  0 ≤ d.humidityVar ∧ d.humidityVar ≤ 1 ∧
  0 ≤ d.dustVar ∧ d.dustVar ≤ 1 ∧
  0 ≤ d.largeVar ∧ d.largeVar ≤ 1

/-- Oracle values for the two `Math.sin` evaluations of one
`generateReading` call (time-of-day and seasonal cycles). -/
structure Waves where
  timeOfDay : ℚ
  seasonal : ℚ
deriving Repr, DecidableEq

/-- Sine values lie in `[-1, 1]`. -/
def Waves.Valid (w : Waves) : Prop :=
  -1 ≤ w.timeOfDay ∧ w.timeOfDay ≤ 1 ∧ -1 ≤ w.seasonal ∧ w.seasonal ≤ 1

/-- One normalized sample produced by the generator
(`SensorReading` in `sensor-data-generator.ts`).  The ISO timestamp is kept
as milliseconds since the epoch. -/
structure Reading where
  smallDustParticles : ℚ
  largeParticles : ℚ
  humidity : ℚ
  temperature : ℚ
  timestamp : ℚ
  quality : Quality
deriving Repr, DecidableEq

/-- Source `getTimeOfDayFactor`: `sin(((hour - 6) * π) / 12) * 0.3`, with the sine
replaced by its oracle. -/
def getTimeOfDayFactor (w : Waves) : ℚ :=
  w.timeOfDay * 0.3

/-- Source `getSeasonalFactor`: `sin(((month - 3) * π) / 6) * 0.2`, with the sine
replaced by its oracle. -/
def getSeasonalFactor (w : Waves) : ℚ :=
  w.seasonal * 0.2

/-- Source `getWeatherInfluence`: `(Math.random() - 0.5) * 0.4`. -/
def getWeatherInfluence (d : Draws) : ℚ :=
  (d.weather - 0.5) * 0.4

/-- Source `getDustAccumulation`: dust grows with days since the last (weekly)
clean, capped at 25, plus noise, floored at 5; `baseSmallDust = 15`. -/
def getDustAccumulation (hoursAgo : ℚ) (d : Draws) : ℚ :=
  let daysSinceLastClean := jsMod (hoursAgo / 24) 7
  let accumulation := min (daysSinceLastClean * 3) 25
  let randomVariation := (d.dustVar - 0.5) * 5
  max 5 (15 + accumulation + randomVariation)

/-- The temperature of one generated reading (`baseTemperature = 22`). -/
def genTemperature (d : Draws) (w : Waves) : ℚ :=
  round10 (22 + getTimeOfDayFactor w * 3 + getSeasonalFactor w * 2 +
    getWeatherInfluence d * 2 + (d.tempVar - 0.5) * 1.5)

/-- The humidity of one generated reading (`baseHumidity = 60`; clamped to
`[35, 85]` and rounded to an integer). -/
def genHumidity (d : Draws) (w : Waves) : ℚ :=
  jsRound (max 35 (min 85
    (60 + (d.humidityVar - 0.5) * 15 + (genTemperature d w - 22) * (-0.8))))

/-- The small-dust level of one generated reading. -/
def genSmallDust (hoursAgo : ℚ) (d : Draws) : ℚ :=
  round10 (getDustAccumulation hoursAgo d)

/-- The large-particle level of one generated reading
(`small * 0.6` plus noise). -/
def genLargeParticles (hoursAgo : ℚ) (d : Draws) : ℚ :=
  round10 (genSmallDust hoursAgo d * 0.6 + (d.largeVar - 0.5) * 3)

/-- Source `CoffeeWarehouseSensorGenerator.generateReading`.  `now` is
`Date.now()` in milliseconds; the reading is stamped
`now - hoursAgo * 3600000`. -/
def generateReading (hoursAgo now : ℚ) (d : Draws) (w : Waves) : Reading :=
  { temperature := genTemperature d w
    humidity := genHumidity d w
    smallDustParticles := genSmallDust hoursAgo d
    largeParticles := genLargeParticles hoursAgo d
    timestamp := now - hoursAgo * 3600000
    quality :=
      determineQuality (genTemperature d w) (genHumidity d w)
        (genSmallDust hoursAgo d) }

/-- Per-call environment of the generator: the draws and sine oracles used
by the call with a given `hoursAgo` index. -/
def GenEnv : Type := ℕ → Draws × Waves

/-- Every slot of a generator environment is valid. -/
def GenEnv.Valid (env : GenEnv) : Prop :=
  ∀ i, (env i).1.Valid ∧ (env i).2.Valid

/-- Source `CoffeeWarehouseSensorGenerator.generateHistoricalData`: the source
loops `for (let i = hours - 1; i >= 0; i--)` pushing `generateReading(i)`,
so the returned list runs from the oldest sample (`hoursAgo = hours - 1`)
to the newest (`hoursAgo = 0`). -/
def generateHistoricalData (hours : ℕ) (now : ℚ) (env : GenEnv) :
    List Reading :=
  (List.range hours).reverse.map fun (i : ℕ) =>
    generateReading (i : ℚ) now (env i).1 (env i).2

/-! ## The shared response shape

The `/api/sensor-data` GET handler builds a JSON body that the hook stores
verbatim as its `SensorData`; one structure serves both.  Static metadata
fields of the JSON body (`channelInfo`, `fieldMappings`, `timeRange`,
`lastUpdated`) are constant strings/echoes that no claim touches and are
omitted from the embedding. -/

/-- One formatted chart point (`chartData` entries). The display string
`time` is omitted; `timestamp` keeps the instant in milliseconds. -/
structure ChartPoint where
  temperature : ℚ
  humidity : ℚ
  smallDust : ℚ
  largeParticles : ℚ
  timestamp : ℚ
deriving Repr, DecidableEq

/-- The `currentValues` snapshot of the response. -/
structure CurrentValues where
  smallDustParticles : ℚ
  largeParticles : ℚ
  humidity : ℚ
  temperature : ℚ
  field3 : ℚ
  field6 : ℚ
  field7 : ℚ
  field8 : ℚ
deriving Repr, DecidableEq

/-- The per-field status strings plus overall quality of the response. -/
structure QualityMetrics where
  temperatureStatus : String
  humidityStatus : String
  smallDustStatus : String
  largeParticlesStatus : String
  overallQuality : Quality
deriving Repr, DecidableEq

/-- A stored reading in database shape (`sensor_readings` row /
ThingSpeak feed mapped to fields).  `created_at` is kept in milliseconds. -/
structure DbReading where
  entry_id : ℤ
  field1 : Option ℚ
  field2 : Option ℚ
  field3 : Option ℚ
  field4 : Option ℚ
  field5 : Option ℚ
  field6 : Option ℚ
  field7 : Option ℚ
  field8 : Option ℚ
  created_at : ℚ
deriving Repr, DecidableEq

/-- The body of the `/api/sensor-data` response, also the hook's stored
`SensorData`.  `dataSource` is `none` where the source object lacks the
field (the hook's `generateMockData` result). -/
structure SensorData where
  success : Bool
  currentValues : CurrentValues
  chartData : List ChartPoint
  readings : List DbReading
  qualityMetrics : QualityMetrics
  totalReadings : ℕ
  isMockData : Bool
  dataSource : Option String
  error : Option String
deriving Repr, DecidableEq

/-! ## The `useSensorData` hook

Source: the TypeScript trailer of `src/scripts/create-helper-functions.sql`.
The React state cells become `HookState`; each `async` callback becomes a
state-transition function over an explicit environment describing the
outcome of its external calls. -/

/-- The hook's `useState` cells that the orchestration logic reads and
writes. -/
structure HookState where
  data : Option SensorData
  error : Option String
  lastSync : Option ℚ
  isUsingMockData : Bool
  consecutiveErrors : ℕ
  loading : Bool
deriving Repr, DecidableEq

/-- Oracle values for one `generateMockData` chart point: the hour shown by
the wall clock, the daily-cycle sine, and the four `Math.random()` draws. -/
structure MockDraws where
  hourOfDay : ℕ
  dayFactor : ℚ
  tempR : ℚ
  humR : ℚ
  dustR : ℚ
  largeR : ℚ
deriving Repr, DecidableEq

/-- One chart point of the hook's `generateMockData`: plausible values,
each clamped to the display bounds by the source's `Math.max`/`Math.min`. -/
def mockPoint (now : ℚ) (i : ℕ) (m : MockDraws) : ChartPoint :=
  let time := now - (i : ℚ) * 3600000
  let dayFactor := m.dayFactor
  let temperature := 22 + dayFactor * 2 + (m.tempR - 0.5) * 2
  let humidity := 60 - dayFactor * 5 + (m.humR - 0.5) * 5
  let smallDust := 15 + ((m.hourOfDay : ℚ) / 24) * 10 + (m.dustR - 0.5) * 5
  let largeParticles := smallDust * 0.6 + (m.largeR - 0.5) * 3
  { temperature := max 15 (min 30 temperature)
    humidity := max 35 (min 85 humidity)
    smallDust := max 0 (min 60 smallDust)
    largeParticles := max 0 (min 40 largeParticles)
    timestamp := time }

/-- The quality metrics `generateMockData` attaches, computed from its
newest chart point. -/
def mockQualityMetrics (last : ChartPoint) : QualityMetrics :=
  { temperatureStatus := if last.temperature ≤ 24 then "optimal" else "warning"
    humidityStatus := if last.humidity ≤ 65 then "optimal" else "warning"
    smallDustStatus := if last.smallDust ≤ 20 then "good" else "moderate"
    largeParticlesStatus := if last.largeParticles ≤ 15 then "good" else "moderate"
    overallQuality := Quality.good }

/-- The hook's `generateMockData(hours)`: `min hours 48` points built
newest-first (`now - i * 3600000`) and then reversed, current values taken
from the newest point (`chartData[chartData.length - 1]`).  For
`min hours 48 = 0` the source would dereference `undefined`; the model
returns `none` there. -/
def generateMockData (hours : ℕ) (now : ℚ) (menv : ℕ → MockDraws) :
    Option SensorData :=
  let chartData :=
    ((List.range (min hours 48)).map fun i => mockPoint now i (menv i)).reverse
  match chartData.getLast? with
  | none => none
  | some last =>
    some
      { success := false
        currentValues :=
          { temperature := last.temperature
            humidity := last.humidity
            smallDustParticles := last.smallDust
            largeParticles := last.largeParticles
            field3 := 0, field6 := 0, field7 := 0, field8 := 0 }
        chartData := chartData
        readings := []
        qualityMetrics := mockQualityMetrics last
        totalReadings := chartData.length
        isMockData := true
        dataSource := none
        error := none }

/-- JavaScript `x || d` on strings: the empty string is falsy. -/
def jsOrStr (x : Option String) (d : String) : String :=
  match x with
  | none => d
  | some v => if v = "" then d else v

/-- The clamp the hook's `fetchData` applies to every received chart point
before storing it (`Math.max(15, Math.min(30, point.temperature || 22))`,
etc.). -/
def clampPoint (p : ChartPoint) : ChartPoint :=
  { p with
    temperature := max 15 (min 30 (jsOrNum p.temperature 22))
    humidity := max 35 (min 85 (jsOrNum p.humidity 60))
    smallDust := max 0 (min 60 (jsOrNum p.smallDust 15))
    largeParticles := max 0 (min 40 (jsOrNum p.largeParticles 10)) }

/-- Outcome of the `fetch` + `response.json()` pair inside `fetchData`:
either some step threw (network error, the explicit
`HTTP error! status` throw on a non-OK response, or a JSON parse failure),
or a body was parsed. -/
inductive FetchEnv
  | thrown (msg : String)
  | okJson (result : SensorData)

/-- The `catch` branch of `fetchData`: record the message, bump the error
counter, and replace the view with freshly generated mock data. -/
def fetchCatch (s : HookState) (hours : ℕ) (now : ℚ) (menv : ℕ → MockDraws)
    (msg : String) : HookState :=
  { s with
    error := some msg
    consecutiveErrors := s.consecutiveErrors + 1
    data := generateMockData hours now menv
    isUsingMockData := true
    loading := false }

/-- The hook's `fetchData` callback as a state transition.  On a body with
`success || isMockData` it clamps the chart data, stores the result, stamps
`lastSync`, and resets the error count; everything else lands in the
`catch` branch. -/
def fetchDataStep (s : HookState) (hours : ℕ) (env : FetchEnv) (now : ℚ)
    (menv : ℕ → MockDraws) : HookState :=
  match env with
  | .okJson result =>
    if result.success || result.isMockData then
      let stored := { result with chartData := result.chartData.map clampPoint }
      { s with
        data := some stored
        error := none
        lastSync := some now
        isUsingMockData := result.isMockData
        consecutiveErrors := 0
        loading := false }
    else
      fetchCatch s hours now menv (jsOrStr result.error "Failed to fetch sensor data")
  | .thrown msg => fetchCatch s hours now menv msg

/-- The hook's `calculateOptimalInterval`, in seconds.  The base constants
are FAST = 30, NORMAL = 60, SLOW = 120, FALLBACK = 300.  (At the recency
test the source also re-checks `!isUsingMockData`, which is already false
on that path.) -/
def calculateOptimalInterval (s : HookState) (now : ℚ) : ℕ :=
  if s.consecutiveErrors ≥ 3 then 300
  else if s.consecutiveErrors ≥ 1 then 120
  else if s.isUsingMockData then 30
  else
    match s.data, s.lastSync with
    | some _, some last =>
      if ¬s.isUsingMockData ∧ now - last < 2 * 60 * 1000 then 30 else 60
    | _, _ => 60

/-- The value `syncThingSpeak` resolves with: the parsed body of
`/api/sync-thingspeak` on a parse, or `{ success: false, error }` from its
`catch`. -/
structure SyncResult where
  success : Bool
  message : Option String
  error : Option String
deriving Repr, DecidableEq

/-- Outcome of the `fetch("/api/sync-thingspeak")` + `json()` pair, plus the
environment for the follow-up `fetchData` call when one happens. -/
inductive SyncEnv
  | thrown (msg : String)
  | okJson (result : SyncResult) (fenv : FetchEnv)

/-- The hook's `syncThingSpeak` (the public `forceSync` surface) as a state
transition returning the `SyncResult` it resolves with.  A parsed body with
`success` resets the error count, otherwise the count is bumped; either way
the hook then re-runs `fetchData`.  A throw is caught, bumps the count,
records a warning, and resolves with `{ success: false, error }`. -/
def syncThingSpeakStep (s : HookState) (hours : ℕ) (env : SyncEnv) (now : ℚ)
    (menv : ℕ → MockDraws) : HookState × SyncResult :=
  match env with
  | .thrown msg =>
    ({ s with
        consecutiveErrors := s.consecutiveErrors + 1
        error := some ("Sync warning: " ++ msg) },
      { success := false, message := none, error := some msg })
  | .okJson result fenv =>
    if result.success then
      (fetchDataStep { s with consecutiveErrors := 0 } hours fenv now menv, result)
    else
      (fetchDataStep { s with consecutiveErrors := s.consecutiveErrors + 1 }
        hours fenv now menv, result)

/-! ## The `/api/sensor-data` GET handler

Source: the second handler in `src/app/api/send-feedback/route.ts`
(lines 207-470).  The ThingSpeak fetch and the Supabase query are
environment inputs; `limit` only shapes the upstream query and is part of
those inputs. -/

/-- One ThingSpeak feed entry.  String field values are pre-parsed: `none`
is an absent/empty (falsy) field, `some v` a numeric one. -/
structure Feed where
  field1 : Option ℚ
  field2 : Option ℚ
  field3 : Option ℚ
  field4 : Option ℚ
  field5 : Option ℚ
  field6 : Option ℚ
  field7 : Option ℚ
  field8 : Option ℚ
  created_at : Option ℚ
  entry_id : Option ℤ
deriving Repr, DecidableEq

/-- Outcome of the handler's direct ThingSpeak fetch: a throw / non-OK
response, or a parsed feed list. -/
inductive TsEnv
  | err
  | ok (feeds : List Feed)

/-- The handler's mapping of a ThingSpeak feed entry to database shape
(fixed field mapping; `field3` is hardcoded unused).  An absent
`created_at` would be an invalid date in the source; it is defaulted
here and never exercised by the claims. -/
def feedToDb (i : ℕ) (f : Feed) : DbReading :=
  { entry_id := 1000000 + (i : ℤ)
    field1 := f.field1
    field2 := f.field2
    field3 := none
    field4 := f.field4
    field5 := f.field5
    field6 := f.field6
    field7 := f.field7
    field8 := f.field8
    created_at := f.created_at.getD 0 }

/-- The handler's mapping of a generated reading to database shape
(`field1` small dust, `field2` large particles, `field4` humidity,
`field5` temperature). -/
def mockToDb (i : ℕ) (r : Reading) : DbReading :=
  { entry_id := 1000000 + (i : ℤ)
    field1 := some r.smallDustParticles
    field2 := some r.largeParticles
    field3 := none
    field4 := some r.humidity
    field5 := some r.temperature
    field6 := none
    field7 := none
    field8 := none
    created_at := r.timestamp }

/-- The per-field status strings the handler computes from the current
values. -/
def routeQualityMetrics (cv : CurrentValues) : QualityMetrics :=
  { temperatureStatus :=
      if 18 ≤ cv.temperature ∧ cv.temperature ≤ 24 then "optimal"
      else if 15 ≤ cv.temperature ∧ cv.temperature ≤ 28 then "acceptable"
      else "critical"
    humidityStatus :=
      if 50 ≤ cv.humidity ∧ cv.humidity ≤ 65 then "optimal"
      else if 40 ≤ cv.humidity ∧ cv.humidity ≤ 75 then "acceptable"
      else "critical"
    smallDustStatus :=
      if cv.smallDustParticles ≤ 20 then "good"
      else if cv.smallDustParticles ≤ 35 then "moderate"
      else if cv.smallDustParticles ≤ 50 then "poor"
      else "hazardous"
    largeParticlesStatus :=
      if cv.largeParticles ≤ 15 then "good"
      else if cv.largeParticles ≤ 25 then "moderate"
      else if cv.largeParticles ≤ 35 then "poor"
      else "hazardous"
    overallQuality :=
      determineQuality cv.temperature cv.humidity cv.smallDustParticles }

/-- The `/api/sensor-data` GET handler (its non-throwing path).  `hours` is
`parseInt` of the query parameter and may be negative; the source performs
no input validation.  For negative `hours` the generator loop
`for (i = hours - 1; i >= 0; i--)` runs zero times, which `Int.toNat`
reproduces.  `cvEnv` supplies the oracles of the four independent
`generateReading(0)` fallback calls in `currentValues`. -/
def sensorDataRoute (hours : ℤ) (ts : TsEnv) (dbReadings : List DbReading)
    (genv : GenEnv) (cvEnv : GenEnv) (now : ℚ) : SensorData :=
  let tsFeeds : List Feed := match ts with | .ok feeds => feeds | .err => []
  let hasRealData : Bool := !tsFeeds.isEmpty
  let readings0 := dbReadings
  let readings1 :=
    if readings0.isEmpty && hasRealData then
      tsFeeds.enum.map fun p => feedToDb p.1 p.2
    else readings0
  let readings :=
    if readings1.isEmpty then
      (generateHistoricalData hours.toNat now genv).enum.map fun p =>
        mockToDb p.1 p.2
    else readings1
  let latestReading := readings.head?
  let fallback (k : ℕ) : Reading :=
    generateReading 0 now (cvEnv k).1 (cvEnv k).2
  let currentValues : CurrentValues :=
    { smallDustParticles :=
        jsOr (latestReading.bind (·.field1)) (fallback 0).smallDustParticles
      largeParticles :=
        jsOr (latestReading.bind (·.field2)) (fallback 1).largeParticles
      humidity := jsOr (latestReading.bind (·.field4)) (fallback 2).humidity
      temperature := jsOr (latestReading.bind (·.field5)) (fallback 3).temperature
      field3 := jsOr (latestReading.bind (·.field3)) 0
      field6 := jsOr (latestReading.bind (·.field6)) 0
      field7 := jsOr (latestReading.bind (·.field7)) 0
      field8 := jsOr (latestReading.bind (·.field8)) 0 }
  let chartData := readings.reverse.map fun r =>
    { temperature := jsOr r.field5 0
      humidity := jsOr r.field4 0
      smallDust := jsOr r.field1 0
      largeParticles := jsOr r.field2 0
      timestamp := r.created_at : ChartPoint }
  { success := true
    currentValues := currentValues
    chartData := chartData
    readings := readings
    qualityMetrics := routeQualityMetrics currentValues
    totalReadings := readings.length
    isMockData := !hasRealData && !readings.isEmpty
    dataSource :=
      some (if hasRealData then "thingspeak"
        else if readings.isEmpty then "none" else "generated")
    error := none }

/-! ## The `/api/sync-thingspeak` POST handler

Source: `src/app/api/sync-thingspeak/route.ts`.  Every branch, including
the final catch-all, responds with `success: true`; failures surface only
as `fallbackMode`, a warning message, or an `error` string. -/

/-- The JSON body of the sync handler's response. -/
structure SyncRouteResult where
  success : Bool
  message : String
  synced : ℕ
  fallbackMode : Bool
  error : Option String
deriving Repr, DecidableEq

/-- The external-world outcomes the sync handler distinguishes: missing API
key, a throwing/timed-out/non-OK ThingSpeak call, a body without a `feeds`
array, or a parsed feed list together with the outcome of the Supabase
upsert. -/
inductive SyncRouteEnv
  | noApiKey
  | fetchThrown (msg : String)
  | badShape
  | okFeeds (feeds : List Feed) (dbError : Option String)

/-- The filter the sync handler applies before storing: drop entries
without `created_at`, then drop readings with none of fields 1/2/4/5. -/
def usableFeeds (feeds : List Feed) : List Feed :=
  (feeds.filter fun f => f.created_at.isSome).filter fun f =>
    f.field1.isSome || f.field2.isSome || f.field4.isSome || f.field5.isSome

/-- The `/api/sync-thingspeak` POST handler. -/
def syncThingSpeakRoute (env : SyncRouteEnv) : SyncRouteResult :=
  match env with
  | .noApiKey =>
    { success := true
      message := "Operating in fallback mode - no ThingSpeak API key configured"
      synced := 0, fallbackMode := true, error := none }
  | .fetchThrown msg =>
    { success := true
      message := "ThingSpeak unavailable, operating in fallback mode"
      synced := 0, fallbackMode := true, error := some msg }
  | .badShape =>
    { success := true
      message := "Invalid ThingSpeak response, operating in fallback mode"
      synced := 0, fallbackMode := true, error := none }
  | .okFeeds feeds dbError =>
    if feeds.isEmpty then
      { success := true, message := "No new data from ThingSpeak"
        synced := 0, fallbackMode := false, error := none }
    else
      let stored := usableFeeds feeds
      match dbError, stored.isEmpty with
      | some e, false =>
        { success := true
          message := "ThingSpeak sync completed with storage warning: " ++ e
          synced := 0, fallbackMode := false, error := none }
      | _, _ =>
        { success := true
          message := "Successfully synced " ++ toString stored.length ++
            " sensor readings"
          synced := if stored.isEmpty then 0 else stored.length
          fallbackMode := false, error := none }

/-! ## Concrete sample values used in witnesses and counterexamples -/

/-- Middle-of-range `Math.random()` draws. -/
def constDraws : Draws := ⟨0.5, 0.5, 0.5, 0.5, 0.5⟩

/-- Zero sine oracles. -/
def constWaves : Waves := ⟨0, 0⟩

/-- A constant generator environment. -/
def constGenEnv : GenEnv := fun _ => (constDraws, constWaves)

/-- A constant oracle for mock chart points (noon, flat daily cycle,
middle-of-range draws). -/
def constMockDraws : MockDraws := ⟨12, 0, 0.5, 0.5, 0.5, 0.5⟩

/-- A constant mock-data environment. -/
def constMockEnv : ℕ → MockDraws := fun _ => constMockDraws

/-- A ThingSpeak feed entry reporting 35 °C — outside the documented
15-30 °C display bound. -/
def hotFeed : Feed :=
  { field1 := some 55, field2 := some 30, field3 := none, field4 := some 70
    field5 := some 35, field6 := none, field7 := none, field8 := none
    created_at := some 0, entry_id := some 1 }

/-- A minimal live (non-mock) response as a successful fetch would store
it. -/
def liveSensorData : SensorData :=
  { success := true
    currentValues :=
      { smallDustParticles := 18, largeParticles := 12, humidity := 60
        temperature := 22, field3 := 0, field6 := 0, field7 := 0, field8 := 0 }
    chartData := []
    readings := []
    qualityMetrics :=
      { temperatureStatus := "optimal", humidityStatus := "optimal"
        smallDustStatus := "good", largeParticlesStatus := "good"
        overallQuality := Quality.excellent }
    totalReadings := 0
    isMockData := false
    dataSource := some "thingspeak"
    error := none }

/-- A hook state holding live data, no errors, synced at time 0. -/
def liveState : HookState :=
  { data := some liveSensorData, error := none, lastSync := some 0
    isUsingMockData := false, consecutiveErrors := 0, loading := false }

/-! ## Arithmetic helper lemmas -/

lemma round_mono_le {x y : ℚ} (h : x ≤ y) : round x ≤ round y := by
  rw [round_eq, round_eq]
  exact Int.floor_le_floor (by linarith)

lemma round10_abs_sub (x : ℚ) : |round10 x - x| ≤ 1 / 20 := by
  have h : |((round (x * 10) : ℤ) : ℚ) - x * 10| ≤ 1 / 2 := by
    have h0 := abs_sub_round (x * 10)
    rwa [abs_sub_comm] at h0
  have hx : round10 x - x = (((round (x * 10) : ℤ) : ℚ) - x * 10) / 10 := by
    unfold round10; ring
  rw [hx, abs_div, abs_of_pos (show (0 : ℚ) < 10 by norm_num)]
  linarith

lemma round10_bounds {x lo hi : ℚ} (h1 : lo ≤ x) (h2 : x ≤ hi) :
    lo - 1 / 20 ≤ round10 x ∧ round10 x ≤ hi + 1 / 20 := by
  have h := abs_le.mp (round10_abs_sub x)
  exact ⟨by linarith [h.1], by linarith [h.2]⟩

/-! ## Bounds of the synthetic generator -/

lemma genTemperature_bounds {d : Draws} {w : Waves} (hd : d.Valid)
    (hw : w.Valid) :
    (19.5 : ℚ) ≤ genTemperature d w ∧ genTemperature d w ≤ 24.5 := by
  obtain ⟨h1, h2, h3, h4, -, -, -, -, -, -⟩ := hd
  obtain ⟨g1, g2, g3, g4⟩ := hw
  unfold genTemperature getTimeOfDayFactor getSeasonalFactor getWeatherInfluence
  have hb := @round10_bounds
    (22 + w.timeOfDay * 0.3 * 3 + w.seasonal * 0.2 * 2 +
      (d.weather - 0.5) * 0.4 * 2 + (d.tempVar - 0.5) * 1.5)
    19.55 24.45 (by nlinarith) (by nlinarith)
  exact ⟨by linarith [hb.1], by linarith [hb.2]⟩

lemma genHumidity_bounds (d : Draws) (w : Waves) :
    (35 : ℚ) ≤ genHumidity d w ∧ genHumidity d w ≤ 85 := by
  unfold genHumidity jsRound
  have h35 : (35 : ℚ) ≤ max 35 (min 85
      (60 + (d.humidityVar - 0.5) * 15 + (genTemperature d w - 22) * (-0.8))) :=
    le_max_left _ _
  have h85 : max 35 (min 85
      (60 + (d.humidityVar - 0.5) * 15 + (genTemperature d w - 22) * (-0.8))) ≤ 85 :=
    max_le (by norm_num) (min_le_left _ _)
  have l1 := round_mono_le h35
  have l2 := round_mono_le h85
  have e1 : round (35 : ℚ) = 35 := by norm_num [round_eq]
  have e2 : round (85 : ℚ) = 85 := by norm_num [round_eq]
  rw [e1] at l1
  rw [e2] at l2
  exact ⟨by exact_mod_cast l1, by exact_mod_cast l2⟩

lemma getDustAccumulation_bounds {hoursAgo : ℚ} {d : Draws} (hd : d.Valid) :
    (5 : ℚ) ≤ getDustAccumulation hoursAgo d ∧
      getDustAccumulation hoursAgo d ≤ 42.5 := by
  have hv1 := hd.2.2.2.2.2.2.1
  have hv2 := hd.2.2.2.2.2.2.2.1
  unfold getDustAccumulation
  refine ⟨le_max_left _ _, max_le (by norm_num) ?_⟩
  have hacc : min (jsMod (hoursAgo / 24) 7 * 3) 25 ≤ 25 := min_le_right _ _
  linarith

lemma genSmallDust_bounds {hoursAgo : ℚ} {d : Draws} (hd : d.Valid) :
    (4.95 : ℚ) ≤ genSmallDust hoursAgo d ∧ genSmallDust hoursAgo d ≤ 42.55 := by
  obtain ⟨hlo, hhi⟩ := @getDustAccumulation_bounds hoursAgo d hd
  unfold genSmallDust
  have hb := round10_bounds hlo hhi
  exact ⟨by linarith [hb.1], by linarith [hb.2]⟩

lemma genLargeParticles_bounds {hoursAgo : ℚ} {d : Draws} (hd : d.Valid) :
    (0 : ℚ) ≤ genLargeParticles hoursAgo d ∧
      genLargeParticles hoursAgo d ≤ 40 := by
  obtain ⟨hlo, hhi⟩ := @genSmallDust_bounds hoursAgo d hd
  have hlv1 := hd.2.2.2.2.2.2.2.2.1
  have hlv2 := hd.2.2.2.2.2.2.2.2.2
  unfold genLargeParticles
  have hb := @round10_bounds
    (genSmallDust hoursAgo d * 0.6 + (d.largeVar - 0.5) * 3)
    1.47 27.03 (by nlinarith) (by nlinarith)
  exact ⟨by linarith [hb.1], by linarith [hb.2]⟩

/-- All four measurements of a generated reading lie inside the documented
clamp bounds. -/
lemma generateReading_bounds {hoursAgo now : ℚ} {d : Draws} {w : Waves}
    (hd : d.Valid) (hw : w.Valid) :
    15 ≤ (generateReading hoursAgo now d w).temperature ∧
    (generateReading hoursAgo now d w).temperature ≤ 30 ∧
    35 ≤ (generateReading hoursAgo now d w).humidity ∧
    (generateReading hoursAgo now d w).humidity ≤ 85 ∧
    0 ≤ (generateReading hoursAgo now d w).smallDustParticles ∧
    (generateReading hoursAgo now d w).smallDustParticles ≤ 60 ∧
    0 ≤ (generateReading hoursAgo now d w).largeParticles ∧
    (generateReading hoursAgo now d w).largeParticles ≤ 40 := by
  obtain ⟨t1, t2⟩ := genTemperature_bounds hd hw
  obtain ⟨u1, u2⟩ := genHumidity_bounds d w
  obtain ⟨s1, s2⟩ := @genSmallDust_bounds hoursAgo d hd
  obtain ⟨l1, l2⟩ := @genLargeParticles_bounds hoursAgo d hd
  simp only [generateReading]
  exact ⟨by linarith, by linarith, u1, u2, by linarith, by linarith, l1, l2⟩

/-! ## Shape lemmas for the generated series -/

lemma generateHistoricalData_length (hours : ℕ) (now : ℚ) (env : GenEnv) :
    (generateHistoricalData hours now env).length = hours := by
  simp [generateHistoricalData]

lemma generateHistoricalData_sorted (hours : ℕ) (now : ℚ) (env : GenEnv) :
    (generateHistoricalData hours now env).Pairwise
      (fun a b => a.timestamp < b.timestamp) := by
  unfold generateHistoricalData
  have hrev : (List.range hours).reverse.Pairwise (fun a b => b < a) :=
    List.pairwise_reverse.mpr (List.pairwise_lt_range hours)
  refine hrev.map _ ?_
  intro a b hab
  simp only [generateReading]
  have hba : (b : ℚ) < (a : ℚ) := by exact_mod_cast hab
  nlinarith

lemma generateHistoricalData_mem_bounds {hours : ℕ} {now : ℚ} {env : GenEnv}
    (henv : env.Valid) {r : Reading}
    (hr : r ∈ generateHistoricalData hours now env) :
    15 ≤ r.temperature ∧ r.temperature ≤ 30 ∧ 35 ≤ r.humidity ∧
    r.humidity ≤ 85 ∧ 0 ≤ r.smallDustParticles ∧ r.smallDustParticles ≤ 60 ∧
    0 ≤ r.largeParticles ∧ r.largeParticles ≤ 40 := by
  unfold generateHistoricalData at hr
  obtain ⟨i, -, rfl⟩ := List.mem_map.mp hr
  exact generateReading_bounds (henv i).1 (henv i).2

/-! ## Shape lemmas for the hook's mock data -/

lemma mockPoint_bounds (now : ℚ) (i : ℕ) (m : MockDraws) :
    15 ≤ (mockPoint now i m).temperature ∧ (mockPoint now i m).temperature ≤ 30 ∧
    35 ≤ (mockPoint now i m).humidity ∧ (mockPoint now i m).humidity ≤ 85 ∧
    0 ≤ (mockPoint now i m).smallDust ∧ (mockPoint now i m).smallDust ≤ 60 ∧
    0 ≤ (mockPoint now i m).largeParticles ∧
    (mockPoint now i m).largeParticles ≤ 40 := by
  simp only [mockPoint]
  exact ⟨le_max_left _ _, max_le (by norm_num) (min_le_left _ _),
    le_max_left _ _, max_le (by norm_num) (min_le_left _ _),
    le_max_left _ _, max_le (by norm_num) (min_le_left _ _),
    le_max_left _ _, max_le (by norm_num) (min_le_left _ _)⟩

lemma clampPoint_bounds (p : ChartPoint) :
    15 ≤ (clampPoint p).temperature ∧ (clampPoint p).temperature ≤ 30 ∧
    35 ≤ (clampPoint p).humidity ∧ (clampPoint p).humidity ≤ 85 ∧
    0 ≤ (clampPoint p).smallDust ∧ (clampPoint p).smallDust ≤ 60 ∧
    0 ≤ (clampPoint p).largeParticles ∧ (clampPoint p).largeParticles ≤ 40 := by
  simp only [clampPoint]
  exact ⟨le_max_left _ _, max_le (by norm_num) (min_le_left _ _),
    le_max_left _ _, max_le (by norm_num) (min_le_left _ _),
    le_max_left _ _, max_le (by norm_num) (min_le_left _ _),
    le_max_left _ _, max_le (by norm_num) (min_le_left _ _)⟩

lemma generateMockData_chart_getLast {hours : ℕ} (h : 1 ≤ hours) (now : ℚ)
    (menv : ℕ → MockDraws) :
    (((List.range (min hours 48)).map fun i =>
        mockPoint now i (menv i)).reverse).getLast? =
      some (mockPoint now 0 (menv 0)) := by
  obtain ⟨m, hm⟩ : ∃ m, min hours 48 = m + 1 := ⟨min hours 48 - 1, by omega⟩
  rw [List.getLast?_reverse, List.head?_map, hm, List.range_succ_eq_map]
  rfl

lemma generateMockData_isSome {hours : ℕ} (h : 1 ≤ hours) (now : ℚ)
    (menv : ℕ → MockDraws) :
    (generateMockData hours now menv).isSome = true := by
  unfold generateMockData
  simp only [generateMockData_chart_getLast h now menv, Option.isSome_some]

/-! ## Claims -/

/-- C1: the interval computed each cycle follows the priority order:
`consecutiveErrors ≥ 3` gives 300 s; else `consecutiveErrors ≥ 1` gives
120 s; else mock data in use gives 30 s; else a last successful sync under
2 minutes old gives 30 s; otherwise 60 s.  Consequently the error sequence
`[0, 1, 2, 3, 4]` yields intervals `[30 or 60, 120, 120, 300, 300]`.  The
hypothesis `hinv` is the hook invariant that `lastSync` is only ever set
together with `data` (both are written by the same success branch of
`fetchData`). -/
theorem interval_priority (s : HookState) (now : ℚ)
    (hinv : s.lastSync.isSome → s.data.isSome) :
    (3 ≤ s.consecutiveErrors → calculateOptimalInterval s now = 300) ∧
    (1 ≤ s.consecutiveErrors → s.consecutiveErrors < 3 →
      calculateOptimalInterval s now = 120) ∧
    (s.consecutiveErrors = 0 → s.isUsingMockData = true →
      calculateOptimalInterval s now = 30) ∧
    (∀ t, s.consecutiveErrors = 0 → s.isUsingMockData = false →
      s.lastSync = some t → now - t < 2 * 60 * 1000 →
      calculateOptimalInterval s now = 30) ∧
    (s.consecutiveErrors = 0 → s.isUsingMockData = false →
      (∀ t, s.lastSync = some t → 2 * 60 * 1000 ≤ now - t) →
      calculateOptimalInterval s now = 60) ∧
    (calculateOptimalInterval { s with consecutiveErrors := 0 } now = 30 ∨
      calculateOptimalInterval { s with consecutiveErrors := 0 } now = 60) ∧
    [0, 1, 2, 3, 4].map
        (fun e => calculateOptimalInterval { s with consecutiveErrors := e } now) =
      [calculateOptimalInterval { s with consecutiveErrors := 0 } now,
        120, 120, 300, 300] := by
  refine ⟨?_, ?_, ?_, ?_, ?_, ?_, ?_⟩
  · intro h
    unfold calculateOptimalInterval
    rw [if_pos h]
  · intro h1 h2
    unfold calculateOptimalInterval
    rw [if_neg (by omega), if_pos h1]
  · intro h0 hm
    unfold calculateOptimalInterval
    rw [if_neg (by omega), if_neg (by omega), if_pos hm]
  · intro t h0 hm hl hr
    have hd := hinv (by simp [hl])
    obtain ⟨dd, hdd⟩ := Option.isSome_iff_exists.mp hd
    unfold calculateOptimalInterval
    rw [if_neg (by omega), if_neg (by omega), if_neg (by simp [hm]), hdd, hl]
    simp only []
    rw [if_pos ⟨by simp [hm], hr⟩]
  · intro h0 hm hall
    unfold calculateOptimalInterval
    rw [if_neg (by omega), if_neg (by omega), if_neg (by simp [hm])]
    cases hdd : s.data with
    | none => rfl
    | some dd =>
      cases hls : s.lastSync with
      | none => rfl
      | some t =>
        have h2 := hall t hls
        simp only []
        rw [if_neg (by rintro ⟨-, hlt⟩; linarith)]
  · have hred : calculateOptimalInterval { s with consecutiveErrors := 0 } now =
        if s.isUsingMockData then 30 else
          match s.data, s.lastSync with
          | some _, some last =>
            if ¬s.isUsingMockData ∧ now - last < 2 * 60 * 1000 then 30 else 60
          | _, _ => 60 := rfl
    rw [hred]
    by_cases hm : s.isUsingMockData
    · left
      rw [if_pos hm]
    · rw [if_neg hm]
      cases hdd : s.data with
      | none => right; rfl
      | some dd =>
        cases hls : s.lastSync with
        | none => right; rfl
        | some t =>
          simp only []
          by_cases hlt : ¬s.isUsingMockData ∧ now - t < 2 * 60 * 1000
          · left; rw [if_pos hlt]
          · right; rw [if_neg hlt]
  · rfl

/-- C1 witness: in a state with live data synced moments ago and no
errors, the computed interval is the fast 30 s. -/
theorem interval_priority_witness :
    calculateOptimalInterval liveState 1000 = 30 :=
  (interval_priority liveState 1000 (fun _ => rfl)).2.2.2.1 0 rfl rfl rfl
    (by norm_num)

/-- C5: the quality classifier starts from a score of 100, subtracts
the cumulative fixed penalties (temperature outside 18-24 minus 20 and
additionally outside 15-28 minus 30; humidity outside 50-65 minus 15 and
additionally outside 40-75 minus 25; small dust above 20 minus 15, above
35 a further 25, above 50 a further 40), and maps the score through the
thresholds 85/70/50/30.  The reading (24, 65, 20) scores at least the
good threshold of 70, and (31, 80, 55) classifies as hazardous. -/
theorem determineQuality_spec (t h dust : ℚ) :
    qualityScore t h dust =
      100 - (if t < 18 ∨ t > 24 then 20 else 0) -
        (if t < 15 ∨ t > 28 then 30 else 0) -
        (if h < 50 ∨ h > 65 then 15 else 0) -
        (if h < 40 ∨ h > 75 then 25 else 0) -
        (if dust > 20 then 15 else 0) - (if dust > 35 then 25 else 0) -
        (if dust > 50 then 40 else 0) ∧
    determineQuality t h dust =
      (if 85 ≤ qualityScore t h dust then Quality.excellent
        else if 70 ≤ qualityScore t h dust then Quality.good
        else if 50 ≤ qualityScore t h dust then Quality.moderate
        else if 30 ≤ qualityScore t h dust then Quality.poor
        else Quality.hazardous) ∧
    70 ≤ qualityScore 24 65 20 ∧
    determineQuality 31 80 55 = Quality.hazardous := by
  refine ⟨?_, rfl, ?_, ?_⟩
  · unfold qualityScore
    split_ifs <;> ring
  · norm_num [qualityScore]
  · norm_num [determineQuality, qualityScore]

/-- C3: one successful cycle resets `consecutiveErrors` to 0 from any
prior count (a successful fetch body directly, and a successful sync
followed by a successful fetch), stamps `lastSync`, and — when the stored
provenance is synthetic or the last success is under two minutes old — the
next computed interval is back to 30 s. -/
theorem success_resets_and_recovers (s : HookState) (hours : ℕ)
    (result : SensorData) (r : SyncResult) (now now2 : ℚ)
    (menv : ℕ → MockDraws)
    (hok : result.success = true ∨ result.isMockData = true) :
    (fetchDataStep s hours (FetchEnv.okJson result) now menv).consecutiveErrors
        = 0 ∧
    (fetchDataStep s hours (FetchEnv.okJson result) now menv).lastSync
        = some now ∧
    (r.success = true →
      (syncThingSpeakStep s hours (SyncEnv.okJson r (FetchEnv.okJson result))
          now menv).1.consecutiveErrors = 0) ∧
    (((fetchDataStep s hours (FetchEnv.okJson result) now menv).isUsingMockData
          = true ∨ now2 - now < 2 * 60 * 1000) →
      calculateOptimalInterval
        (fetchDataStep s hours (FetchEnv.okJson result) now menv) now2 = 30) := by
  have hcond : (result.success || result.isMockData) = true := by
    rcases hok with h | h <;> simp [h]
  have hstep : fetchDataStep s hours (FetchEnv.okJson result) now menv =
      { s with
        data := some { result with chartData := result.chartData.map clampPoint }
        error := none
        lastSync := some now
        isUsingMockData := result.isMockData
        consecutiveErrors := 0
        loading := false } := by
    simp only [fetchDataStep]
    rw [if_pos hcond]
  refine ⟨by rw [hstep], by rw [hstep], ?_, ?_⟩
  · intro hr
    have hsync : syncThingSpeakStep s hours
        (SyncEnv.okJson r (FetchEnv.okJson result)) now menv =
        (fetchDataStep { s with consecutiveErrors := 0 } hours
          (FetchEnv.okJson result) now menv, r) := by
      simp only [syncThingSpeakStep]
      rw [if_pos hr]
    rw [hsync]
    show (fetchDataStep { s with consecutiveErrors := 0 } hours
      (FetchEnv.okJson result) now menv).consecutiveErrors = 0
    simp only [fetchDataStep]
    rw [if_pos hcond]
  · intro hd
    have hred : calculateOptimalInterval
        { s with
          data := some { result with chartData := result.chartData.map clampPoint }
          error := none
          lastSync := some now
          isUsingMockData := result.isMockData
          consecutiveErrors := 0
          loading := false } now2 =
        if result.isMockData then 30 else
          if ¬result.isMockData ∧ now2 - now < 2 * 60 * 1000 then 30 else 60 :=
      rfl
    rw [hstep, hred]
    rcases hd with hd | hd
    · rw [hstep] at hd
      have hm : result.isMockData = true := hd
      rw [if_pos hm]
    · by_cases hm : result.isMockData
      · rw [if_pos hm]
      · rw [if_neg hm, if_pos ⟨hm, hd⟩]

/-- C3 witness: from five consecutive errors, one successful fetch
resets the counter to 0 and the interval recomputes to 30 s. -/
theorem success_resets_and_recovers_witness :
    (fetchDataStep { liveState with consecutiveErrors := 5 } 24
        (FetchEnv.okJson liveSensorData) 0 constMockEnv).consecutiveErrors = 0 ∧
    calculateOptimalInterval
      (fetchDataStep { liveState with consecutiveErrors := 5 } 24
        (FetchEnv.okJson liveSensorData) 0 constMockEnv) 1000 = 30 :=
  ⟨(success_resets_and_recovers { liveState with consecutiveErrors := 5 } 24
      liveSensorData ⟨true, none, none⟩ 0 1000 constMockEnv (Or.inl rfl)).1,
    (success_resets_and_recovers { liveState with consecutiveErrors := 5 } 24
      liveSensorData ⟨true, none, none⟩ 0 1000 constMockEnv (Or.inl rfl)).2.2.2
      (Or.inr (by norm_num))⟩

/-- C6 counterexample: after a failed fetch the hook does increment the
error counter, but it does not keep the prior state as last-known-good: the
live state (not mock) becomes a freshly generated mock state, so the state
visible after the failing cycle differs from the one visible before it. -/
theorem failed_fetch_replaces_state :
    (fetchDataStep liveState 24 (FetchEnv.thrown "timeout") 1000
        constMockEnv).consecutiveErrors = liveState.consecutiveErrors + 1 ∧
    liveState.isUsingMockData = false ∧
    (fetchDataStep liveState 24 (FetchEnv.thrown "timeout") 1000
        constMockEnv).isUsingMockData = true ∧
    fetchDataStep liveState 24 (FetchEnv.thrown "timeout") 1000 constMockEnv ≠
      liveState := by
  refine ⟨rfl, rfl, rfl, ?_⟩
  intro h
  have h2 := congrArg HookState.isUsingMockData h
  simp only [fetchDataStep, fetchCatch, liveState] at h2
  exact Bool.noConfusion h2

/-- C6 (amended): after a failed or timed-out fetch the hook increments
the error counter and does not clear the state, but neither does it keep
the prior state: it stores freshly generated mock data (marked as mock),
records the error text, and leaves `lastSync` untouched. -/
theorem failed_fetch_mocks_state (s : HookState) (hours : ℕ) (msg : String)
    (now : ℚ) (menv : ℕ → MockDraws) (h1 : 1 ≤ hours) :
    (fetchDataStep s hours (FetchEnv.thrown msg) now menv).consecutiveErrors =
      s.consecutiveErrors + 1 ∧
    (fetchDataStep s hours (FetchEnv.thrown msg) now menv).error = some msg ∧
    (fetchDataStep s hours (FetchEnv.thrown msg) now menv).data =
      generateMockData hours now menv ∧
    ((fetchDataStep s hours (FetchEnv.thrown msg) now menv).data).isSome
        = true ∧
    (fetchDataStep s hours (FetchEnv.thrown msg) now menv).isUsingMockData
        = true ∧
    (fetchDataStep s hours (FetchEnv.thrown msg) now menv).lastSync =
      s.lastSync := by
  refine ⟨rfl, rfl, rfl, ?_, rfl, rfl⟩
  show (generateMockData hours now menv).isSome = true
  exact generateMockData_isSome h1 now menv

/-- C6 (amended) witness at a concrete state, hour window 24. -/
theorem failed_fetch_mocks_state_witness :
    (fetchDataStep liveState 24 (FetchEnv.thrown "timeout") 1000
        constMockEnv).consecutiveErrors = liveState.consecutiveErrors + 1 ∧
    ((fetchDataStep liveState 24 (FetchEnv.thrown "timeout") 1000
        constMockEnv).data).isSome = true :=
  ⟨(failed_fetch_mocks_state liveState 24 "timeout" 1000 constMockEnv
      (by norm_num)).1,
    (failed_fetch_mocks_state liveState 24 "timeout" 1000 constMockEnv
      (by norm_num)).2.2.2.1⟩

/-- C7: `forceSync` (the hook's `syncThingSpeak`) always resolves to a
`SyncResult`: a thrown external call is caught and encoded as
`success = false` with the error text while the error counter is bumped; a
parsed body is returned as-is, with the shared state updated through the
same `fetchData` transition a scheduled cycle uses (error counter reset on
success, bumped otherwise).  The backing `/api/sync-thingspeak` handler
responds `success: true` on every path, never a rejection. -/
theorem forceSync_never_rejects (s : HookState) (hours : ℕ) (now : ℚ)
    (menv : ℕ → MockDraws) :
    (∀ msg,
      (syncThingSpeakStep s hours (SyncEnv.thrown msg) now menv).2.success
          = false ∧
      (syncThingSpeakStep s hours (SyncEnv.thrown msg) now menv).2.error
          = some msg ∧
      (syncThingSpeakStep s hours
          (SyncEnv.thrown msg) now menv).1.consecutiveErrors =
        s.consecutiveErrors + 1) ∧
    (∀ r fenv,
      (syncThingSpeakStep s hours (SyncEnv.okJson r fenv) now menv).2 = r ∧
      (r.success = true →
        (syncThingSpeakStep s hours (SyncEnv.okJson r fenv) now menv).1 =
          fetchDataStep { s with consecutiveErrors := 0 } hours fenv now menv) ∧
      (r.success = false →
        (syncThingSpeakStep s hours (SyncEnv.okJson r fenv) now menv).1 =
          fetchDataStep { s with consecutiveErrors := s.consecutiveErrors + 1 }
            hours fenv now menv)) ∧
    (∀ env, (syncThingSpeakRoute env).success = true) := by
  refine ⟨fun msg => ⟨rfl, rfl, rfl⟩, ?_, ?_⟩
  · intro r fenv
    refine ⟨?_, ?_, ?_⟩
    · simp only [syncThingSpeakStep]
      by_cases hr : r.success
      · rw [if_pos hr]
      · rw [if_neg hr]
    · intro hr
      simp only [syncThingSpeakStep]
      rw [if_pos hr]
    · intro hr
      simp only [syncThingSpeakStep]
      rw [if_neg (by simp [hr])]
  · intro env
    cases env with
    | noApiKey => rfl
    | fetchThrown msg => rfl
    | badShape => rfl
    | okFeeds feeds dbError =>
      simp only [syncThingSpeakRoute]
      split
      · rfl
      · split <;> rfl

/-- C7 witness: a thrown sync call resolves (does not reject) with
`success = false` and the error text, and the handler's fallback-mode
response reports success. -/
theorem forceSync_never_rejects_witness :
    (syncThingSpeakStep liveState 24 (SyncEnv.thrown "network down") 0
        constMockEnv).2.success = false ∧
    (syncThingSpeakRoute SyncRouteEnv.noApiKey).success = true :=
  ⟨((forceSync_never_rejects liveState 24 0 constMockEnv).1 "network down").1,
    (forceSync_never_rejects liveState 24 0 constMockEnv).2.2
      SyncRouteEnv.noApiKey⟩

/-- C2 counterexample: a reading fetched from the remote source is
exposed unclamped in the `currentValues` snapshot.  With an upstream feed
reporting 35 °C, the handler's `currentValues.temperature` is 35, outside
the documented 15-30 bound — the claimed hard invariant does not cover
fetched-for-display current values. -/
theorem currentValues_escape_bounds :
    (sensorDataRoute 24 (TsEnv.ok [hotFeed]) [] constGenEnv constGenEnv
        0).currentValues.temperature = 35 ∧
    ¬((sensorDataRoute 24 (TsEnv.ok [hotFeed]) [] constGenEnv constGenEnv
        0).currentValues.temperature ≤ 30) := by
  have h : (sensorDataRoute 24 (TsEnv.ok [hotFeed]) [] constGenEnv constGenEnv
      0).currentValues.temperature = 35 := by
    simp only [sensorDataRoute]
    norm_num [hotFeed, feedToDb, jsOr, List.enum]
  exact ⟨h, by rw [h]; norm_num⟩

/-- C2 (amended): the clamping invariant holds for the synthetic
generator's output and for the chart history the hook stores (it clamps
every received chart point before exposing it); it does not extend to the
current-values snapshot built from remote readings, which is exposed
unclamped. -/
theorem clamping_generated_and_displayed (hoursAgo now : ℚ) (d : Draws)
    (w : Waves) (p : ChartPoint) (hd : d.Valid) (hw : w.Valid) :
    (15 ≤ (generateReading hoursAgo now d w).temperature ∧
      (generateReading hoursAgo now d w).temperature ≤ 30 ∧
      35 ≤ (generateReading hoursAgo now d w).humidity ∧
      (generateReading hoursAgo now d w).humidity ≤ 85 ∧
      0 ≤ (generateReading hoursAgo now d w).smallDustParticles ∧
      (generateReading hoursAgo now d w).smallDustParticles ≤ 60 ∧
      0 ≤ (generateReading hoursAgo now d w).largeParticles ∧
      (generateReading hoursAgo now d w).largeParticles ≤ 40) ∧
    (15 ≤ (clampPoint p).temperature ∧ (clampPoint p).temperature ≤ 30 ∧
      35 ≤ (clampPoint p).humidity ∧ (clampPoint p).humidity ≤ 85 ∧
      0 ≤ (clampPoint p).smallDust ∧ (clampPoint p).smallDust ≤ 60 ∧
      0 ≤ (clampPoint p).largeParticles ∧ (clampPoint p).largeParticles ≤ 40) :=
  ⟨generateReading_bounds hd hw, clampPoint_bounds p⟩

/-- C2 (amended) witness at middle-of-range oracles and an
out-of-range raw chart point. -/
theorem clamping_generated_and_displayed_witness :
    (15 ≤ (generateReading 0 0 constDraws constWaves).temperature ∧
      (generateReading 0 0 constDraws constWaves).temperature ≤ 30) ∧
    (15 ≤ (clampPoint ⟨100, 100, 100, 100, 0⟩).temperature ∧
      (clampPoint ⟨100, 100, 100, 100, 0⟩).temperature ≤ 30) := by
  have h := clamping_generated_and_displayed 0 0 constDraws constWaves
    ⟨100, 100, 100, 100, 0⟩
    (by norm_num [constDraws, Draws.Valid])
    (by norm_num [constWaves, Waves.Valid])
  exact ⟨⟨h.1.1, h.1.2.1⟩, ⟨h.2.1, h.2.2.1⟩⟩

/-- C4: when the primary remote source fails and the secondary store
holds nothing for the window, the handler returns synthetic data: the
response is tagged mock/generated and the reading list has exactly one
entry per requested hour (non-empty for a positive window). -/
theorem fallback_chain_complete (hours : ℤ) (genv cvEnv : GenEnv) (now : ℚ)
    (h1 : 1 ≤ hours) :
    (sensorDataRoute hours TsEnv.err [] genv cvEnv now).isMockData = true ∧
    (sensorDataRoute hours TsEnv.err [] genv cvEnv now).dataSource =
      some "generated" ∧
    (sensorDataRoute hours TsEnv.err [] genv cvEnv now).readings.length =
      hours.toNat ∧
    (sensorDataRoute hours TsEnv.err [] genv cvEnv now).readings ≠ [] ∧
    (sensorDataRoute hours TsEnv.err [] genv cvEnv now).totalReadings =
      hours.toNat := by
  have hmock : ((generateHistoricalData hours.toNat now genv).enum.map
      (fun p => mockToDb p.1 p.2)).length = hours.toNat := by
    simp [generateHistoricalData_length]
  obtain ⟨a, t, hat⟩ := List.exists_cons_of_ne_nil
    (show ((generateHistoricalData hours.toNat now genv).enum.map
        (fun p => mockToDb p.1 p.2)) ≠ [] by
      intro hnil
      rw [hnil] at hmock
      simp at hmock
      omega)
  simp only [sensorDataRoute]
  rw [hat] at hmock ⊢
  simp [hmock]

/-- C4 witness: a two-hour window with a dead primary and an empty
store yields two generated readings tagged mock. -/
theorem fallback_chain_complete_witness :
    (sensorDataRoute 2 TsEnv.err [] constGenEnv constGenEnv 0).isMockData
        = true ∧
    (sensorDataRoute 2 TsEnv.err [] constGenEnv constGenEnv 0).readings.length
        = 2 :=
  ⟨(fallback_chain_complete 2 constGenEnv constGenEnv 0 (by norm_num)).1,
    (fallback_chain_complete 2 constGenEnv constGenEnv 0 (by norm_num)).2.2.1⟩

/-- C9 counterexample: a negative hours window is not rejected.  The
handler parses `hours = -5`, runs to completion, and answers a successful
(`success = true`, no error) response with an empty reading list and
`dataSource = "none"` — a degraded-but-successful response, where the
claim requires a synchronous descriptive rejection. -/
theorem negative_hours_not_rejected :
    (sensorDataRoute (-5) TsEnv.err [] constGenEnv constGenEnv 0).success
        = true ∧
    (sensorDataRoute (-5) TsEnv.err [] constGenEnv constGenEnv 0).error
        = none ∧
    (sensorDataRoute (-5) TsEnv.err [] constGenEnv constGenEnv 0).readings
        = [] ∧
    (sensorDataRoute (-5) TsEnv.err [] constGenEnv constGenEnv 0).dataSource
        = some "none" := by
  have htn : ((-5 : ℤ)).toNat = 0 := rfl
  simp [sensorDataRoute, htn, generateHistoricalData]

/-- C9 (amended): invalid input is not a rejecting class at this public
boundary: for every negative window the handler degrades instead of
raising — it returns `success = true` with no error, an empty reading
list, `dataSource = "none"`, and no mock tag. -/
theorem negative_hours_degrades (hours : ℤ) (genv cvEnv : GenEnv) (now : ℚ)
    (h : hours < 0) :
    (sensorDataRoute hours TsEnv.err [] genv cvEnv now).success = true ∧
    (sensorDataRoute hours TsEnv.err [] genv cvEnv now).error = none ∧
    (sensorDataRoute hours TsEnv.err [] genv cvEnv now).readings = [] ∧
    (sensorDataRoute hours TsEnv.err [] genv cvEnv now).dataSource =
      some "none" ∧
    (sensorDataRoute hours TsEnv.err [] genv cvEnv now).isMockData = false := by
  have htn : hours.toNat = 0 := Int.toNat_eq_zero.mpr (le_of_lt h)
  simp [sensorDataRoute, htn, generateHistoricalData]

/-- C9 (amended) witness at `hours = -5`. -/
theorem negative_hours_degrades_witness :
    (sensorDataRoute (-5) TsEnv.err [] constGenEnv constGenEnv 0).success
        = true ∧
    (sensorDataRoute (-5) TsEnv.err [] constGenEnv constGenEnv 0).readings
        = [] :=
  ⟨(negative_hours_degrades (-5) constGenEnv constGenEnv 0 (by norm_num)).1,
    (negative_hours_degrades (-5) constGenEnv constGenEnv 0
      (by norm_num)).2.2.1⟩

/-- C8: for every `N ≥ 1`, `generateHistoricalData N` returns exactly
`N` readings, one per hour generated independently from `hoursAgo`,
returned in chronological oldest-to-newest order, each with all four
measurements inside the clamp bounds. -/
theorem generateHistoricalData_shape (hours : ℕ) (now : ℚ) (env : GenEnv)
    (henv : env.Valid) (hh : 1 ≤ hours) :
    (generateHistoricalData hours now env).length = hours ∧
    generateHistoricalData hours now env ≠ [] ∧
    (generateHistoricalData hours now env).Pairwise
      (fun a b => a.timestamp < b.timestamp) ∧
    ∀ r ∈ generateHistoricalData hours now env,
      15 ≤ r.temperature ∧ r.temperature ≤ 30 ∧ 35 ≤ r.humidity ∧
      r.humidity ≤ 85 ∧ 0 ≤ r.smallDustParticles ∧
      r.smallDustParticles ≤ 60 ∧ 0 ≤ r.largeParticles ∧
      r.largeParticles ≤ 40 := by
  refine ⟨generateHistoricalData_length hours now env, ?_,
    generateHistoricalData_sorted hours now env,
    fun r hr => generateHistoricalData_mem_bounds henv hr⟩
  intro hnil
  have hlen := generateHistoricalData_length hours now env
  rw [hnil] at hlen
  simp at hlen
  omega

/-- C8 witness: a 24-hour request with valid oracles yields exactly 24
readings. -/
theorem generateHistoricalData_shape_witness :
    (generateHistoricalData 24 0 constGenEnv).length = 24 :=
  (generateHistoricalData_shape 24 0 constGenEnv
    (fun _ => ⟨by norm_num [constGenEnv, constDraws, Draws.Valid],
      by norm_num [constGenEnv, constWaves, Waves.Valid]⟩)
    (by norm_num)).1

/-- C10 (implicit): the hook's client-side fallback
`generateMockData(hours)` caps the produced history at 48 samples: for
every window of at least one hour it returns a chart series of length
`min hours 48`, chronologically ordered and clamped to the display bounds,
with `currentValues` taken from the newest point (timestamp `now`) and the
mock tag set. -/
theorem generateMockData_caps (hours : ℕ) (now : ℚ) (menv : ℕ → MockDraws)
    (h1 : 1 ≤ hours) :
    ∃ sd, generateMockData hours now menv = some sd ∧
      sd.isMockData = true ∧
      sd.chartData.length = min hours 48 ∧
      sd.chartData.Pairwise (fun a b => a.timestamp < b.timestamp) ∧
      (∀ p ∈ sd.chartData,
        15 ≤ p.temperature ∧ p.temperature ≤ 30 ∧ 35 ≤ p.humidity ∧
        p.humidity ≤ 85 ∧ 0 ≤ p.smallDust ∧ p.smallDust ≤ 60 ∧
        0 ≤ p.largeParticles ∧ p.largeParticles ≤ 40) ∧
      ∃ last, sd.chartData.getLast? = some last ∧ last.timestamp = now ∧
        sd.currentValues.temperature = last.temperature ∧
        sd.currentValues.humidity = last.humidity ∧
        sd.currentValues.smallDustParticles = last.smallDust ∧
        sd.currentValues.largeParticles = last.largeParticles := by
  have hlast := generateMockData_chart_getLast h1 now menv
  have hpair : (((List.range (min hours 48)).map fun i =>
      mockPoint now i (menv i)).reverse).Pairwise
      (fun a b => a.timestamp < b.timestamp) := by
    rw [List.pairwise_reverse]
    refine (List.pairwise_lt_range (min hours 48)).map _ ?_
    intro a b hab
    simp only [mockPoint]
    have hab2 : (a : ℚ) < (b : ℚ) := by exact_mod_cast hab
    nlinarith
  have hmem : ∀ p ∈ ((List.range (min hours 48)).map fun i =>
      mockPoint now i (menv i)).reverse,
      15 ≤ p.temperature ∧ p.temperature ≤ 30 ∧ 35 ≤ p.humidity ∧
      p.humidity ≤ 85 ∧ 0 ≤ p.smallDust ∧ p.smallDust ≤ 60 ∧
      0 ≤ p.largeParticles ∧ p.largeParticles ≤ 40 := by
    intro p hp
    rw [List.mem_reverse] at hp
    obtain ⟨i, -, rfl⟩ := List.mem_map.mp hp
    exact mockPoint_bounds now i (menv i)
  unfold generateMockData
  simp only [hlast]
  refine ⟨_, rfl, rfl, by simp, hpair, hmem,
    mockPoint now 0 (menv 0), hlast, ?_, rfl, rfl, rfl, rfl⟩
  simp [mockPoint]

/-- C10 witness: a 50-hour window produces only 48 fallback samples. -/
theorem generateMockData_caps_witness :
    ∃ sd, generateMockData 50 0 constMockEnv = some sd ∧
      sd.chartData.length = 48 := by
  obtain ⟨sd, heq, -, hlen, -⟩ :=
    generateMockData_caps 50 0 constMockEnv (by norm_num)
  exact ⟨sd, heq, by rw [hlen]; norm_num⟩

end TDMS
